import Mathlib

set_option maxRecDepth 100000

/-!
Shallow embedding of `src/WorkforceOptimizer-AI.py` (class `WorkforceOptimizer`):
the validation engine (`validate_data`), the metrics pipeline
(`calculate_metrics`, `generate_report`) and the orchestration
(`process_input`, embedded here as `process_teams`, its part after parsing).

Python floats are modelled as exact rationals (`ℚ`); Python exceptions are
modelled by `Except PyError`.  A raw field value is either a value on which
`float()` succeeds (`num`), a string on which `float()` raises `ValueError`
(`str`), or a non-string non-numeric value such as JSON `null`, a list or an
object, on which `float()` raises `TypeError` (`other`).
-/

/-- A raw field value as it arrives from the parser.
`num q` covers Python ints/floats and numeric strings (`float()` returns `q`);
`str s` covers non-numeric strings (`float()` raises `ValueError`);
`other` covers non-string non-numeric values such as JSON `null`, arrays and
objects (`float()` raises `TypeError`). -/
inductive RawValue where
  | num (q : ℚ)
  | str (s : String)
  | other
  deriving DecidableEq

/-- The Python exceptions that the embedded code can raise. -/
inductive PyError where
  | valueError
  | typeError
  | zeroDivisionError
  | keyError
  deriving DecidableEq

instance instDecEqExcept {ε α : Type} [DecidableEq ε] [DecidableEq α] :
    DecidableEq (Except ε α) := fun x y =>
  match x, y with
  | .ok a, .ok b =>
    match decEq a b with
    | isTrue h => isTrue (by rw [h])
    | isFalse h => isFalse (by intro hh; cases hh; exact h rfl)
  | .error a, .error b =>
    match decEq a b with
    | isTrue h => isTrue (by rw [h])
    | isFalse h => isFalse (by intro hh; cases hh; exact h rfl)
  | .ok _, .error _ => isFalse (by intro hh; cases hh)
  | .error _, .ok _ => isFalse (by intro hh; cases hh)

/-- In Python, `ZeroDivisionError` is a subclass of `ArithmeticError`;
the other modelled exceptions are not. -/
def PyError.isArithmeticError : PyError → Bool
  | .zeroDivisionError => true
  | _ => false

/-- A team record: a dict from field names to raw values (insertion order kept). -/
def Team : Type := List (String × RawValue)

/-- Dict lookup (`team[field]` / `field in team`). -/
def lookup (team : Team) (field : String) : Option RawValue :=
  (team.find? (fun p => p.1 == field)).map (fun p => p.2)

/-- `self.valid_fields` (source lines 9-11). -/
def valid_fields : List String :=
  ["team_id", "current_staff", "queries_per_day", "average_query_time",
   "shift_hours", "available_capacity", "remote_infrastructure_efficiency"]

/-- `self.numeric_fields` (source lines 12-14). -/
def numeric_fields : List String :=
  ["current_staff", "queries_per_day", "average_query_time", "shift_hours",
   "available_capacity", "remote_infrastructure_efficiency"]

/-- `self.positive_fields` (source lines 15-16). -/
def positive_fields : List String :=
  ["current_staff", "queries_per_day", "average_query_time", "shift_hours"]

/-- `self.percentage_fields` (source line 17). -/
def percentage_fields : List String :=
  ["available_capacity", "remote_infrastructure_efficiency"]

/-- Python `float(v)`: succeeds on numbers and numeric strings, raises
`ValueError` on non-numeric strings, raises `TypeError` on everything else. -/
def pyFloat : RawValue → Except PyError ℚ
  | .num q => .ok q
  | .str _ => .error .valueError
  | .other => .error .typeError

/-- Python `a / b` on floats: raises `ZeroDivisionError` when `b = 0`.
The quotient is kept exact here, whereas CPython rounds it to binary64
(round to nearest, ties to even); the rounding itself is modelled by `fl`
below, which settles the one claim whose truth depends on it. -/
def pydiv (a b : ℚ) : Except PyError ℚ :=
  if b = 0 then .error .zeroDivisionError else .ok (a / b)

/-- The range/positivity checks of source lines 90-103, applied to a value
that parsed as a number (`value = float(team[field])` succeeded).
Returns the list of error strings appended for this (field, row) pair. -/
def check_value (field : String) (rowNum : Nat) (value : ℚ) : List String :=
  if (["current_staff", "queries_per_day"].contains field) then
    if value.den ≠ 1 ∨ value ≤ 0 then
      [s!"ERROR: Invalid value for \x27{field}\x27 in row {rowNum}. Expected positive integer."]
    else []
  else if (["average_query_time", "shift_hours"].contains field) then
    if value ≤ 0 then
      [s!"ERROR: Invalid value for \x27{field}\x27 in row {rowNum}. Expected positive number."]
    else []
  else if percentage_fields.contains field then
    if value < 0 ∨ 100 < value then
      [s!"ERROR: Invalid value for \x27{field}\x27 in row {rowNum}. Expected value between 0 and 100."]
    else []
  else []

/-- One iteration of the type/value loop body (source lines 86-106):
`try: value = float(team[field]); ... except ValueError: ...`.
A `TypeError` from `float()` is NOT caught and escapes. -/
def check_team_field (i : Nat) (team : Team) (field : String) :
    Except PyError (List String) :=
  match lookup team field with
  | none => .ok []
  | some v =>
    match pyFloat v with
    | .ok value => .ok (check_value field (i + 1) value)
    | .error .valueError =>
        .ok [s!"ERROR: Invalid data type for \x27{field}\x27 in row {i + 1}. Expected a numeric value."]
    | .error e => .error e

/-- The inner loop over `self.numeric_fields` for one team (source lines 85-106). -/
def check_team (i : Nat) (team : Team) : Except PyError (List String) :=
  numeric_fields.foldlM
    (fun acc field => do
      let es ← check_team_field i team field
      return acc ++ es)
    []

/-- The type/value validation pass over all teams (source lines 84-106). -/
def type_value_errors (teams : List Team) : Except PyError (List String) :=
  teams.enum.foldlM
    (fun acc p => do
      let es ← check_team p.1 p.2
      return acc ++ es)
    []

/-- Errors appended for one missing required field (source lines 78-80). -/
def missing_field_errors (teams : List Team) (field : String) : List String :=
  teams.enum.filterMap
    (fun p =>
      if (lookup p.2 field).isSome then none
      else
        some s!"ERROR: Missing required field \x27{field}\x27 in row {p.1 + 1}.")

/-- The required-fields pass (source lines 73-80): report lines and errors. -/
def required_field_check (teams : List Team) : List String × List String :=
  valid_fields.foldl
    (fun acc field =>
      if teams.all (fun team => (lookup team field).isSome) then
        (acc.1 ++ [s!" - {field}: present"], acc.2)
      else
        (acc.1 ++ [s!" - {field}: missing"], acc.2 ++ missing_field_errors teams field))
    ([], [])

/-- Python `needle in hay` on strings: substring containment. -/
def containsSub (needle hay : String) : Bool :=
  decide (needle.toList <:+: hay.toList)

/-- Source line 110: a field counts as validated in the rollup when no
collected error string contains the substring `Invalid value for '<field>'`. -/
def field_validated (field : String) (validation_errors : List String) : Bool :=
  !(validation_errors.any
      (fun err => containsSub s!"Invalid value for \x27{field}\x27" err))

/-- One rollup line of source lines 108-125. -/
def rollup_line (field : String) (label : String) (validation_errors : List String) :
    String :=
  if field_validated field validation_errors then
    s!" - {field} ({label}): validated"
  else
    s!" - {field} ({label}): not valid"

/-- The per-field-group validity rollup (source lines 108-125). -/
def rollup_lines (validation_errors : List String) : List String :=
  (positive_fields.take 2).map (fun f => rollup_line f "positive integer" validation_errors)
    ++ (positive_fields.drop 2).map (fun f => rollup_line f "positive number" validation_errors)
    ++ percentage_fields.map (fun f => rollup_line f "0 to 100" validation_errors)

/-- `validate_data` (source lines 56-136).  Returns the (report, errors) pair;
an uncaught `TypeError` from `float()` on a non-string non-numeric value
escapes as `.error`. -/
def validate_data (teams : List Team) : Except PyError (List String × List String) :=
  let n := teams.length
  let base := ["# Data Validation Report", "## Data Structure Check:",
               s!" - Number of teams: {n}"]
  match teams with
  | [] =>
      .ok (base ++ [" - Number of fields per record: 0"],
           ["ERROR: No teams found in the input data."])
  | t0 :: _ => do
      let m := t0.length
      let report1 := base ++ [s!" - Number of fields per record: {m}"]
                          ++ ["\n## Required Fields Check:"]
      let fieldPass := required_field_check teams
      let report2 := report1 ++ fieldPass.1 ++ ["\n## Data Type and Value Validation:"]
      let typeErrs ← type_value_errors teams
      let validation_errors := fieldPass.2 ++ typeErrs
      let report3 := report2 ++ rollup_lines validation_errors
                             ++ ["\n## Validation Summary:"]
      let summary :=
        if validation_errors.isEmpty then
          ["Data validation is successful!"]
        else
          ["Validation failed with the following errors:"]
            ++ validation_errors.map (fun e => s!"- {e}")
            ++ ["\nPlease correct and resubmit this data again."]
      return (report3 ++ summary, validation_errors)

/-- Python `"{:.Nf}".format(q)` on the exact rational `q`: fixed-point
rendering with `prec` fractional digits.  Rounds halves up, whereas CPython
rounds halves of exactly representable doubles to even; no claim depends on
the rendered digits. -/
def fmtFixed (q : ℚ) (prec : Nat) : String :=
  let scaled : ℤ := round (q * (10 : ℚ) ^ prec)
  let sign := if scaled < 0 then "-" else ""
  let n := scaled.natAbs
  if prec = 0 then
    sign ++ toString n
  else
    let ip := n / 10 ^ prec
    let fp := n % 10 ^ prec
    let fps := toString fp
    let pad := String.mk (List.replicate (prec - fps.length) '0')
    sign ++ toString ip ++ "." ++ pad ++ fps

/-- Python `str(value)` for a raw value, as used in the report f-strings. -/
def RawValue.pyStr : RawValue → String
  | .num q => toString q
  | .str s => s
  | .other => "None"

/-- The dict returned by `calculate_metrics` (source lines 194-229):
all inputs, every intermediate value, the final metrics, the status and the
recommendation string. -/
structure TeamMetrics where
  team_id : RawValue
  current_staff : ℚ
  queries_per_day : ℚ
  average_query_time : ℚ
  shift_hours : ℚ
  available_capacity : ℚ
  remote_infrastructure_efficiency : ℚ
  workload_step1 : ℚ
  workload_per_agent : ℚ
  capacity_step1 : ℚ
  agent_capacity : ℚ
  utilization_rate : ℚ
  capacity_surplus_percentage : ℚ
  weighted_surplus : ℚ
  weighted_efficiency : ℚ
  weighted_utilization : ℚ
  composite_score : ℚ
  required_staff : ℚ
  staffing_efficiency_ratio : ℚ
  status : String
  recommendation : String
  deriving DecidableEq

/-- `team_data[field]`: raises `KeyError` when the field is absent. -/
def getField (team : Team) (field : String) : Except PyError RawValue :=
  match lookup team field with
  | none => .error .keyError
  | some v => .ok v

/-- Read a numeric field and convert it with `float()` (source line 141).
All numeric fields are converted before any arithmetic runs, as in the
dict comprehension of line 141. -/
def getNum (team : Team) (field : String) : Except PyError ℚ :=
  match lookup team field with
  | none => .error .keyError
  | some v => pyFloat v

/-- `calculate_metrics` (source lines 138-229).  Divisions raise
`ZeroDivisionError` exactly where Python float division would. -/
def calculate_metrics (team : Team) : Except PyError TeamMetrics := do
  let team_id ← getField team "team_id"
  let queries_per_day ← getNum team "queries_per_day"
  let average_query_time ← getNum team "average_query_time"
  let current_staff ← getNum team "current_staff"
  let shift_hours ← getNum team "shift_hours"
  let available_capacity ← getNum team "available_capacity"
  let remote_efficiency ← getNum team "remote_infrastructure_efficiency"
  let workload_step1 := queries_per_day * average_query_time
  let workload_per_agent ← pydiv workload_step1 current_staff
  let capacity_step1 := shift_hours * 60
  let agent_capacity := capacity_step1 * (available_capacity / 100)
  let ur0 ← pydiv workload_per_agent agent_capacity
  let utilization_rate := ur0 * 100
  let cs0 ← pydiv (agent_capacity - workload_per_agent) agent_capacity
  let capacity_surplus_percentage := cs0 * 100
  let weighted_surplus := capacity_surplus_percentage * 0.5
  let weighted_efficiency := remote_efficiency * 0.3
  let weighted_utilization := (100 - utilization_rate) * 0.2
  let composite_score := weighted_surplus + weighted_efficiency + weighted_utilization
  let required_staff ← pydiv (queries_per_day * average_query_time) agent_capacity
  let staffing_efficiency_ratio ← pydiv current_staff required_staff
  let is_optimal :=
    decide (composite_score ≥ 60 ∧ 0.9 ≤ staffing_efficiency_ratio
              ∧ staffing_efficiency_ratio ≤ 1.1 ∧ utilization_rate ≤ 90)
  let status := if is_optimal then "Optimal" else "Needs Adjustment"
  let cs2 := fmtFixed composite_score 2
  let ser2 := fmtFixed staffing_efficiency_ratio 2
  let ur2 := fmtFixed utilization_rate 2
  let recommendation :=
    if is_optimal then
      s!"Based on a Composite Score of {cs2}, a Staffing Efficiency Ratio of {ser2}, and a Utilization Rate of {ur2}%, the team\x27s scheduling is optimal. The recommendation is to maintain the current workforce distribution."
    else
      s!"Based on a Composite Score of {cs2}, a Staffing Efficiency Ratio of {ser2}, and a Utilization Rate of {ur2}%, the team\x27s scheduling requires adjustments. Consider reassigning workforce, adjusting shift timings, or enhancing remote infrastructure."
  return {
    team_id := team_id
    current_staff := current_staff
    queries_per_day := queries_per_day
    average_query_time := average_query_time
    shift_hours := shift_hours
    available_capacity := available_capacity
    remote_infrastructure_efficiency := remote_efficiency
    workload_step1 := workload_step1
    workload_per_agent := workload_per_agent
    capacity_step1 := capacity_step1
    agent_capacity := agent_capacity
    utilization_rate := utilization_rate
    capacity_surplus_percentage := capacity_surplus_percentage
    weighted_surplus := weighted_surplus
    weighted_efficiency := weighted_efficiency
    weighted_utilization := weighted_utilization
    composite_score := composite_score
    required_staff := required_staff
    staffing_efficiency_ratio := staffing_efficiency_ratio
    status := status
    recommendation := recommendation }

/-- The per-team block of `generate_report` (source lines 240-316). -/
def team_block (result : TeamMetrics) : List String :=
  let tid := result.team_id.pyStr
  let cst0 := fmtFixed result.current_staff 0
  let q0 := fmtFixed result.queries_per_day 0
  let q2 := fmtFixed result.queries_per_day 2
  let a2 := fmtFixed result.average_query_time 2
  let sh2 := fmtFixed result.shift_hours 2
  let cap2 := fmtFixed result.available_capacity 2
  let re2 := fmtFixed result.remote_infrastructure_efficiency 2
  let w1 := fmtFixed result.workload_step1 2
  let cst2 := fmtFixed result.current_staff 2
  let w2 := fmtFixed result.workload_per_agent 2
  let cs1 := fmtFixed result.capacity_step1 2
  let ac2 := fmtFixed result.agent_capacity 2
  let urq4 := fmtFixed (result.workload_per_agent / result.agent_capacity) 4
  let ur2 := fmtFixed result.utilization_rate 2
  let csp2 := fmtFixed result.capacity_surplus_percentage 2
  let ws2 := fmtFixed result.weighted_surplus 2
  let we2 := fmtFixed result.weighted_efficiency 2
  let wu2 := fmtFixed result.weighted_utilization 2
  let comp2 := fmtFixed result.composite_score 2
  let rs2 := fmtFixed result.required_staff 2
  let ser2 := fmtFixed result.staffing_efficiency_ratio 2
  ["# Detailed Analysis per Team:",
   s!"Team {tid}",
   "Input Data:",
   s!" - Current Staff: {cst0}",
   s!" - Queries Per Day: {q0}",
   s!" - Average Query Time (minutes): {a2}",
   s!" - Shift Hours: {sh2}",
   s!" - Available Capacity (%): {cap2}",
   s!" - Remote Infrastructure Efficiency (%): {re2}",
   "",
   "# Detailed Calculations:",
   "## 1. Workload per Agent Calculation:",
   " - Formula: $$ \\text\x7bWorkload per Agent\x7d = \\frac\x7b\\text\x7bqueries_per_day\x7d \\times \\text\x7baverage_query_time\x7d\x7d\x7b\\text\x7bcurrent_staff\x7d\x7d $$",
   " - Calculation Steps:",
   s!"   Step 1: Multiply queries_per_day by average_query_time: {q2} × {a2} = {w1}",
   s!"   Step 2: Divide the result by current_staff: {w1} ÷ {cst2} = {w2}",
   s!" - Final Workload per Agent: {w2}",
   "",
   "## 2. Agent Capacity Calculation:",
   " - Formula: $$ \\text\x7bAgent Capacity\x7d = \\text\x7bshift_hours\x7d \\times 60 \\times \\frac\x7b\\text\x7bavailable_capacity\x7d\x7d\x7b100\x7d $$",
   " - Calculation Steps:",
   s!"   Step 1: Multiply shift_hours by 60: {sh2} × 60 = {cs1}",
   s!"   Step 2: Multiply the result by (available_capacity/100): {cs1} × ({cap2}/100) = {ac2}",
   s!" - Final Agent Capacity: {ac2}",
   "",
   "## 3. Utilization Rate Calculation:",
   " - Formula: $$ \\text\x7bUtilization Rate\x7d = \\frac\x7b\\text\x7bWorkload per Agent\x7d\x7d\x7b\\text\x7bAgent Capacity\x7d\x7d \\times 100 $$",
   " - Calculation Steps:",
   s!"   Step 1: Divide Workload per Agent by Agent Capacity: {w2} ÷ {ac2} = {urq4}",
   s!"   Step 2: Multiply the result by 100: {urq4} × 100 = {ur2}",
   s!" - Final Utilization Rate: {ur2}%",
   "",
   "## 4. Composite Scheduling Score Calculation:",
   " - Step 1: Calculate Capacity Surplus Percentage:",
   " $$ \\text\x7bCapacity Surplus Percentage\x7d = \\frac\x7b(\\text\x7bAgent Capacity\x7d - \\text\x7bWorkload per Agent\x7d)\x7d\x7b\\text\x7bAgent Capacity\x7d\x7d \\times 100 $$",
   s!"   Calculation: ({ac2} - {w2}) ÷ {ac2} × 100 = {csp2}%",
   s!" - Step 2: Multiply the Capacity Surplus Percentage by 0.5: {csp2} × 0.5 = {ws2}",
   s!" - Step 3: Multiply remote_infrastructure_efficiency by 0.3: {re2} × 0.3 = {we2}",
   s!" - Step 4: Subtract the Utilization Rate from 100, then multiply by 0.2: (100 - {ur2}) × 0.2 = {wu2}",
   " - Step 5: Sum the weighted values:",
   " $$ \\text\x7bComposite Score\x7d = (\\text\x7bCapacity Surplus Percentage\x7d \\times 0.5) + (\\text\x7bremote_infrastructure_efficiency\x7d \\times 0.3) + ((100 - \\text\x7bUtilization Rate\x7d) \\times 0.2) $$",
   s!"   Calculation: {ws2} + {we2} + {wu2} = {comp2}",
   s!" - Final Composite Score: {comp2}",
   "",
   "## 5. Staffing Efficiency Calculation:",
   " - Formula for Required Staff:",
   " $$ \\text\x7bRequired Staff\x7d = \\frac\x7b\\text\x7bqueries_per_day\x7d \\times \\text\x7baverage_query_time\x7d\x7d\x7b\\text\x7bAgent Capacity\x7d\x7d $$",
   s!"   Calculation: ({q2} × {a2}) ÷ {ac2} = {rs2}",
   " - Formula for Staffing Efficiency Ratio:",
   " $$ \\text\x7bStaffing Efficiency Ratio\x7d = \\frac\x7b\\text\x7bcurrent_staff\x7d\x7d\x7b\\text\x7bRequired Staff\x7d\x7d $$",
   s!"   Calculation: {cst2} ÷ {rs2} = {ser2}",
   s!" - Final Staffing Efficiency Ratio: {ser2}",
   "",
   "# Final Recommendation per Team:",
   s!" - Composite Score: {comp2}",
   s!" - Utilization Rate: {ur2}%",
   s!" - Staffing Efficiency Ratio: {ser2}",
   s!" - Status: {result.status}",
   s!" - Recommended Action: {result.recommendation}",
   ""]

/-- `generate_report` (source lines 231-322): computes the metrics for every
team and joins the report lines.  A `ZeroDivisionError` inside
`calculate_metrics` escapes. -/
def generate_report (teams : List Team) : Except PyError String := do
  let team_results ← teams.mapM calculate_metrics
  let n := teams.length
  let header := ["# Workforce Distribution Summary:", s!"Total Teams Evaluated: {n}", ""]
  let footer := ["# FEEDBACK AND RATING PROTOCOL",
                 "Would you like detailed calculations for any specific team? Please rate this analysis on a scale of 1-5."]
  return String.intercalate "\n" (header ++ (team_results.map team_block).flatten ++ footer)

/-- `process_input` after parsing (source lines 331-338): validate, and
return only the validation report when any error was collected, otherwise
append the full report. -/
def process_teams (teams : List Team) : Except PyError String := do
  let vr ← validate_data teams
  let validation_report_str := String.intercalate "\n" vr.1
  if vr.2 ≠ [] then
    return validation_report_str
  else
    let final_report ← generate_report teams
    return validation_report_str ++ "\n\n" ++ final_report

/-- A fully populated team record with the seven schema fields, the numeric
ones already numeric. -/
def mkTeam (tid : String) (staff queries avg shift cap eff : ℚ) : Team :=
  [("team_id", RawValue.str tid),
   ("current_staff", RawValue.num staff),
   ("queries_per_day", RawValue.num queries),
   ("average_query_time", RawValue.num avg),
   ("shift_hours", RawValue.num shift),
   ("available_capacity", RawValue.num cap),
   ("remote_infrastructure_efficiency", RawValue.num eff)]

/-- The constraints `validate_data` enforces on the six numeric fields
(source lines 90-103): integrality and positivity for `current_staff` and
`queries_per_day`, positivity for `average_query_time` and `shift_hours`,
and the closed range [0, 100] for the two percentage fields. -/
def ValidInputs (staff queries avg shift cap eff : ℚ) : Prop :=
  staff.den = 1 ∧ 0 < staff ∧ queries.den = 1 ∧ 0 < queries ∧
    0 < avg ∧ 0 < shift ∧ 0 ≤ cap ∧ cap ≤ 100 ∧ 0 ≤ eff ∧ eff ≤ 100

/-- Closed form of the metrics dict produced by `calculate_metrics` on a
fully populated record whose divisions all succeed; the let-chain follows
the source formulas (lines 148-191) step by step. -/
def metricsClosed (tid : RawValue) (staff queries avg shift cap eff : ℚ) : TeamMetrics :=
  let workload_step1 := queries * avg
  let workload_per_agent := workload_step1 / staff
  let capacity_step1 := shift * 60
  let agent_capacity := capacity_step1 * (cap / 100)
  let ur0 := workload_per_agent / agent_capacity
  let utilization_rate := ur0 * 100
  let cs0 := (agent_capacity - workload_per_agent) / agent_capacity
  let capacity_surplus_percentage := cs0 * 100
  let weighted_surplus := capacity_surplus_percentage * 0.5
  let weighted_efficiency := eff * 0.3
  let weighted_utilization := (100 - utilization_rate) * 0.2
  let composite_score := weighted_surplus + weighted_efficiency + weighted_utilization
  let required_staff := queries * avg / agent_capacity
  let staffing_efficiency_ratio := staff / required_staff
  let is_optimal :=
    decide (composite_score ≥ 60 ∧ 0.9 ≤ staffing_efficiency_ratio
              ∧ staffing_efficiency_ratio ≤ 1.1 ∧ utilization_rate ≤ 90)
  let status := if is_optimal then "Optimal" else "Needs Adjustment"
  let cs2 := fmtFixed composite_score 2
  let ser2 := fmtFixed staffing_efficiency_ratio 2
  let ur2 := fmtFixed utilization_rate 2
  let recommendation :=
    if is_optimal then
      s!"Based on a Composite Score of {cs2}, a Staffing Efficiency Ratio of {ser2}, and a Utilization Rate of {ur2}%, the team\x27s scheduling is optimal. The recommendation is to maintain the current workforce distribution."
    else
      s!"Based on a Composite Score of {cs2}, a Staffing Efficiency Ratio of {ser2}, and a Utilization Rate of {ur2}%, the team\x27s scheduling requires adjustments. Consider reassigning workforce, adjusting shift timings, or enhancing remote infrastructure."
  { team_id := tid
    current_staff := staff
    queries_per_day := queries
    average_query_time := avg
    shift_hours := shift
    available_capacity := cap
    remote_infrastructure_efficiency := eff
    workload_step1 := workload_step1
    workload_per_agent := workload_per_agent
    capacity_step1 := capacity_step1
    agent_capacity := agent_capacity
    utilization_rate := utilization_rate
    capacity_surplus_percentage := capacity_surplus_percentage
    weighted_surplus := weighted_surplus
    weighted_efficiency := weighted_efficiency
    weighted_utilization := weighted_utilization
    composite_score := composite_score
    required_staff := required_staff
    staffing_efficiency_ratio := staffing_efficiency_ratio
    status := status
    recommendation := recommendation }

/-- The six numeric fields paired with the labels the rollup loops print
(source lines 109-125). -/
def fieldLabels : List (String × String) :=
  [("current_staff", "positive integer"), ("queries_per_day", "positive integer"),
   ("average_query_time", "positive number"), ("shift_hours", "positive number"),
   ("available_capacity", "0 to 100"), ("remote_infrastructure_efficiency", "0 to 100")]

/-- A one-record batch carrying only `team_id`: six required fields missing,
so validation collects errors. -/
def demoBadBatch : List Team := [[("team_id", RawValue.str "T1")]]

/-- The validation report produced for `demoBadBatch`. -/
def demoBadReport : List String :=
  match validate_data demoBadBatch with
  | .ok p => p.1
  | .error _ => []

/-- The validation errors produced for `demoBadBatch`. -/
def demoBadErrors : List String :=
  match validate_data demoBadBatch with
  | .ok p => p.2
  | .error _ => []

/-- A one-record batch whose `current_staff` is the non-numeric string
`"abc"`: its only failure is a parse (data-type) failure. -/
def typeErrBatch : List Team :=
  [[("team_id", RawValue.str "T1"),
    ("current_staff", RawValue.str "abc"),
    ("queries_per_day", RawValue.num 150),
    ("average_query_time", RawValue.num 3),
    ("shift_hours", RawValue.num 8),
    ("available_capacity", RawValue.num 70),
    ("remote_infrastructure_efficiency", RawValue.num 80)]]

/-- The validation report produced for `typeErrBatch`. -/
def typeErrReport : List String :=
  match validate_data typeErrBatch with
  | .ok p => p.1
  | .error _ => []

/-- The validation errors produced for `typeErrBatch`. -/
def typeErrList : List String :=
  match validate_data typeErrBatch with
  | .ok p => p.2
  | .error _ => []

/-- A one-record batch with JSON `null` (modelled by `RawValue.other`) in
`current_staff` and every other field valid. -/
def nullValueBatch : List Team :=
  [[("team_id", RawValue.str "T1"),
    ("current_staff", RawValue.other),
    ("queries_per_day", RawValue.num 150),
    ("average_query_time", RawValue.num 3),
    ("shift_hours", RawValue.num 8),
    ("available_capacity", RawValue.num 70),
    ("remote_infrastructure_efficiency", RawValue.num 80)]]

/-- A batch that passes every validation check but has
`available_capacity = 0`. -/
def zeroCapBatch : List Team := [mkTeam "TeamZeroCap" 10 150 3 8 0 80]

/-- The validation report produced for `zeroCapBatch` (its error list is empty). -/
def zeroCapReport : List String :=
  match validate_data zeroCapBatch with
  | .ok p => p.1
  | .error _ => []

/-- Round to the nearest integer, ties to the even one (the IEEE-754
default rounding applied to a scaled significand). -/
def roundEven (y : ℚ) : ℤ :=
  let f := ⌊y⌋
  if y - f < 1 / 2 then f
  else if 1 / 2 < y - f then f + 1
  else if f % 2 = 0 then f else f + 1

/-- Binary64 rounding of an exact rational: round to nearest, ties to even,
with a 53-bit significand, as CPython applies to every float operation.
Overflow and subnormal underflow lie outside the magnitudes used here and
are not modelled. -/
def fl (x : ℚ) : ℚ :=
  if x = 0 then 0
  else
    let a := |x|
    let e : ℤ := Int.log 2 a - 52
    let m : ℤ := roundEven (a / 2 ^ e)
    (if x < 0 then -1 else 1) * (m : ℚ) * 2 ^ e

/-! ### Helper lemmas -/

lemma getField_mkTeam_tid (tid : String) (st q a sh cap eff : ℚ) :
    getField (mkTeam tid st q a sh cap eff) "team_id" = .ok (.str tid) := rfl

lemma getNum_mkTeam_queries (tid : String) (st q a sh cap eff : ℚ) :
    getNum (mkTeam tid st q a sh cap eff) "queries_per_day" = .ok q := rfl

lemma getNum_mkTeam_avg (tid : String) (st q a sh cap eff : ℚ) :
    getNum (mkTeam tid st q a sh cap eff) "average_query_time" = .ok a := rfl

lemma getNum_mkTeam_staff (tid : String) (st q a sh cap eff : ℚ) :
    getNum (mkTeam tid st q a sh cap eff) "current_staff" = .ok st := rfl

lemma getNum_mkTeam_shift (tid : String) (st q a sh cap eff : ℚ) :
    getNum (mkTeam tid st q a sh cap eff) "shift_hours" = .ok sh := rfl

lemma getNum_mkTeam_cap (tid : String) (st q a sh cap eff : ℚ) :
    getNum (mkTeam tid st q a sh cap eff) "available_capacity" = .ok cap := rfl

lemma getNum_mkTeam_eff (tid : String) (st q a sh cap eff : ℚ) :
    getNum (mkTeam tid st q a sh cap eff) "remote_infrastructure_efficiency" = .ok eff := rfl

lemma bind_ok {α β : Type} (x : α) (f : α → Except PyError β) :
    (Except.ok x >>= f) = f x := rfl

/-- On a fully populated record whose three division chains have nonzero
denominators, `calculate_metrics` succeeds and returns the closed form. -/
lemma calculate_metrics_mkTeam (tid : String) (staff queries avg shift cap eff : ℚ)
    (h1 : staff ≠ 0) (h2 : shift * 60 * (cap / 100) ≠ 0)
    (h3 : queries * avg / (shift * 60 * (cap / 100)) ≠ 0) :
    calculate_metrics (mkTeam tid staff queries avg shift cap eff)
      = .ok (metricsClosed (.str tid) staff queries avg shift cap eff) := by
  simp only [calculate_metrics, getField_mkTeam_tid, getNum_mkTeam_queries, getNum_mkTeam_avg,
    getNum_mkTeam_staff, getNum_mkTeam_shift, getNum_mkTeam_cap, getNum_mkTeam_eff,
    bind_ok, pydiv, h1, h2, h3, if_neg, metricsClosed]
  simp [Bind.bind, Except.bind, Pure.pure, Except.pure, h1, h2, h3]

/-- With `available_capacity = 0` the `agent_capacity` denominator is zero and
`calculate_metrics` raises `ZeroDivisionError` at the utilization step. -/
lemma calculate_metrics_zero_cap (tid : String) (staff q a sh eff : ℚ) (h1 : staff ≠ 0) :
    calculate_metrics (mkTeam tid staff q a sh 0 eff) = .error .zeroDivisionError := by
  simp [calculate_metrics, getField_mkTeam_tid, getNum_mkTeam_queries, getNum_mkTeam_avg,
    getNum_mkTeam_staff, getNum_mkTeam_shift, getNum_mkTeam_cap, getNum_mkTeam_eff,
    pydiv, Bind.bind, Except.bind, h1]

/-- A `ZeroDivisionError` in the single team of a batch escapes from
`generate_report`. -/
lemma generate_report_single_error (t : Team) (e : PyError)
    (h : calculate_metrics t = .error e) : generate_report [t] = .error e := by
  simp [generate_report, List.mapM, List.mapM.loop, h, Bind.bind, Except.bind]

/-- `Int.log` at a concrete rational, from the bracketing powers of the base. -/
lemma Int_log_eq (b : ℕ) (hb : 1 < b) {r : ℚ} (hr : 0 < r) {e : ℤ}
    (h1 : (b : ℚ) ^ e ≤ r) (h2 : r < (b : ℚ) ^ (e + 1)) : Int.log b r = e := by
  refine le_antisymm ?_ ((Int.zpow_le_iff_le_log hb hr).mp h1)
  have := (Int.lt_zpow_iff_log_lt hb hr).mp h2
  omega

/-- `roundEven` at a value whose fractional part is below one half. -/
lemma roundEven_eq_floor {y : ℚ} {f : ℤ} (hf : ⌊y⌋ = f) (h : y - f < 1 / 2) :
    roundEven y = f := by
  simp only [roundEven]
  rw [hf, if_pos h]

/-- Evaluating `fl` on a positive rational from its exponent and rounded
significand. -/
lemma fl_pos_eval {x : ℚ} (hx : 0 < x) {e : ℤ} (hlog : Int.log 2 x = e) {m : ℤ}
    (hm : roundEven (x / 2 ^ (e - 52)) = m) : fl x = m * 2 ^ (e - 52) := by
  simp only [fl]
  rw [if_neg (ne_of_gt hx), abs_of_pos hx, hlog, if_neg (not_lt.mpr hx.le), hm]
  ring

/-- Evaluating the status `if` of `calculate_metrics`: the branch picked is
the "Optimal" one exactly when the decided proposition holds. -/
lemma ite_decide_eq_left_iff {P : Prop} [Decidable P] {a b : String} (hne : b ≠ a) :
    ((if decide P = true then a else b) = a) ↔ P := by
  by_cases h : P <;> simp [h, hne]

/-- A rollup line reads "validated" exactly when no collected error string
contains the substring `Invalid value for '<field>'`. -/
lemma rollup_line_eq_validated_iff (field label : String) (errs : List String)
    (hne : s!" - {field} ({label}): not valid" ≠ s!" - {field} ({label}): validated") :
    (rollup_line field label errs = s!" - {field} ({label}): validated") ↔
      ¬ ∃ err ∈ errs, (s!"Invalid value for \x27{field}\x27").toList <:+: err.toList := by
  unfold rollup_line
  rcases hb : field_validated field errs with _ | _
  · simp only [Bool.false_eq_true, if_false]
    constructor
    · intro h; exact absurd h hne
    · intro h
      exfalso
      apply h
      have hb' := hb
      unfold field_validated containsSub at hb'
      simp only [Bool.not_eq_false', List.any_eq_true, decide_eq_true_eq] at hb'
      exact hb'
  · simp only [if_pos]
    constructor
    · intro _
      have hb' := hb
      unfold field_validated containsSub at hb'
      simp only [Bool.not_eq_true', List.any_eq_false, decide_eq_true_eq] at hb'
      intro ⟨err, hmem, hinf⟩
      exact hb' err hmem hinf
    · intro _; trivial

/-! ### Claim theorems -/

/-- C6: on the empty batch the validator returns exactly one error, the
structural "No teams found" error, and the report stops after the structure
check: no required-field, type or range lines are produced. -/
theorem C6_empty_batch_single_structural_error :
    validate_data [] =
      .ok (["# Data Validation Report", "## Data Structure Check:",
            " - Number of teams: 0", " - Number of fields per record: 0"],
           ["ERROR: No teams found in the input data."]) := by
  decide

/-- C5 (refuted: the code can raise): on a batch whose `current_staff` holds a
non-string non-numeric value (JSON `null`), `float()` raises `TypeError`,
which the `except ValueError` handler does not catch, so `validate_data`
raises instead of returning a (report, errors) pair. -/
theorem C5_null_value_raises_TypeError :
    validate_data nullValueBatch = .error .typeError := by
  decide

/-- C1: if validation collects at least one error the pipeline returns only
the validation report, and the metrics stage (`generate_report`, which runs
`calculate_metrics` on every record) contributes to the output only when the
error list is empty. -/
theorem C1_failing_batch_returns_report_only (teams : List Team) (r e : List String)
    (h : validate_data teams = .ok (r, e)) :
    (e ≠ [] → process_teams teams = .ok (String.intercalate "\n" r)) ∧
    (e = [] → process_teams teams
        = (generate_report teams).map
            (fun fr => String.intercalate "\n" r ++ "\n\n" ++ fr)) := by
  constructor
  · intro he
    simp [process_teams, h, bind_ok, he, Pure.pure, Except.pure]
  · intro he
    subst he
    simp only [process_teams, h, bind_ok]
    cases hg : generate_report teams <;>
      simp [hg, Except.map, Bind.bind, Except.bind, Pure.pure, Except.pure]

/-- C1 witness: a batch with six missing required fields takes the
failure branch of the pipeline. -/
theorem C1_failing_batch_returns_report_only_witness :
    process_teams demoBadBatch = .ok (String.intercalate "\n" demoBadReport) :=
  (C1_failing_batch_returns_report_only demoBadBatch demoBadReport demoBadErrors
    (by decide)).1 (by decide)

/-- C2: on a validated record (with nonzero `available_capacity`, so that the
divisions are defined) `calculate_metrics` computes exactly the twelve-step
formula chain, each step from the retained value of the previous ones, and
returns every intermediate value in the metrics record. -/
theorem C2_twelve_step_formula_chain (tid : String) (staff queries avg shift cap eff : ℚ)
    (hv : ValidInputs staff queries avg shift cap eff) (hcap : 0 < cap) :
    ∃ m, calculate_metrics (mkTeam tid staff queries avg shift cap eff) = .ok m
      ∧ m.current_staff = staff ∧ m.queries_per_day = queries
      ∧ m.average_query_time = avg ∧ m.shift_hours = shift
      ∧ m.available_capacity = cap ∧ m.remote_infrastructure_efficiency = eff
      ∧ m.workload_step1 = queries * avg
      ∧ m.workload_per_agent = m.workload_step1 / staff
      ∧ m.capacity_step1 = shift * 60
      ∧ m.agent_capacity = m.capacity_step1 * (cap / 100)
      ∧ m.utilization_rate = m.workload_per_agent / m.agent_capacity * 100
      ∧ m.capacity_surplus_percentage
          = (m.agent_capacity - m.workload_per_agent) / m.agent_capacity * 100
      ∧ m.weighted_surplus = m.capacity_surplus_percentage * 0.5
      ∧ m.weighted_efficiency = eff * 0.3
      ∧ m.weighted_utilization = (100 - m.utilization_rate) * 0.2
      ∧ m.composite_score
          = m.weighted_surplus + m.weighted_efficiency + m.weighted_utilization
      ∧ m.required_staff = queries * avg / m.agent_capacity
      ∧ m.staffing_efficiency_ratio = staff / m.required_staff := by
  obtain ⟨hd1, hs, hd2, hq, ha, hsh, hc0, hc100, he0, he100⟩ := hv
  have h1 : staff ≠ 0 := ne_of_gt hs
  have h2 : shift * 60 * (cap / 100) ≠ 0 :=
    ne_of_gt (mul_pos (mul_pos hsh (by norm_num)) (div_pos hcap (by norm_num)))
  have h3 : queries * avg / (shift * 60 * (cap / 100)) ≠ 0 :=
    div_ne_zero (ne_of_gt (mul_pos hq ha)) h2
  refine ⟨_, calculate_metrics_mkTeam tid staff queries avg shift cap eff h1 h2 h3, ?_⟩
  simp [metricsClosed]

/-- C2 witness: the chain instantiated on the sample record. -/
theorem C2_twelve_step_formula_chain_witness :
    ValidInputs 10 150 3 8 70 80 ∧ (0 : ℚ) < 70 ∧
    (∃ m, calculate_metrics (mkTeam "TeamOmega" 10 150 3 8 70 80) = .ok m
      ∧ m.current_staff = 10 ∧ m.queries_per_day = 150
      ∧ m.average_query_time = 3 ∧ m.shift_hours = 8
      ∧ m.available_capacity = 70 ∧ m.remote_infrastructure_efficiency = 80
      ∧ m.workload_step1 = 150 * 3
      ∧ m.workload_per_agent = m.workload_step1 / 10
      ∧ m.capacity_step1 = 8 * 60
      ∧ m.agent_capacity = m.capacity_step1 * (70 / 100)
      ∧ m.utilization_rate = m.workload_per_agent / m.agent_capacity * 100
      ∧ m.capacity_surplus_percentage
          = (m.agent_capacity - m.workload_per_agent) / m.agent_capacity * 100
      ∧ m.weighted_surplus = m.capacity_surplus_percentage * 0.5
      ∧ m.weighted_efficiency = 80 * 0.3
      ∧ m.weighted_utilization = (100 - m.utilization_rate) * 0.2
      ∧ m.composite_score
          = m.weighted_surplus + m.weighted_efficiency + m.weighted_utilization
      ∧ m.required_staff = 150 * 3 / m.agent_capacity
      ∧ m.staffing_efficiency_ratio = 10 / m.required_staff) :=
  ⟨by unfold ValidInputs; decide, by norm_num,
   C2_twelve_step_formula_chain "TeamOmega" 10 150 3 8 70 80
     (by unfold ValidInputs; decide) (by norm_num)⟩

/-- C3: on a validated record (nonzero capacity) the status is "Optimal"
exactly when all three thresholds hold: composite score at least 60, staffing
efficiency ratio within [0.9, 1.1], utilization rate at most 90. -/
theorem C3_optimal_iff_three_thresholds (tid : String) (staff queries avg shift cap eff : ℚ)
    (hv : ValidInputs staff queries avg shift cap eff) (hcap : 0 < cap) :
    ∀ m, calculate_metrics (mkTeam tid staff queries avg shift cap eff) = .ok m →
      (m.status = "Optimal" ↔
        (m.composite_score ≥ 60 ∧ 0.9 ≤ m.staffing_efficiency_ratio
          ∧ m.staffing_efficiency_ratio ≤ 1.1 ∧ m.utilization_rate ≤ 90)) := by
  obtain ⟨hd1, hs, hd2, hq, ha, hsh, hc0, hc100, he0, he100⟩ := hv
  have h1 : staff ≠ 0 := ne_of_gt hs
  have h2 : shift * 60 * (cap / 100) ≠ 0 :=
    ne_of_gt (mul_pos (mul_pos hsh (by norm_num)) (div_pos hcap (by norm_num)))
  have h3 : queries * avg / (shift * 60 * (cap / 100)) ≠ 0 :=
    div_ne_zero (ne_of_gt (mul_pos hq ha)) h2
  intro m hm
  rw [calculate_metrics_mkTeam tid staff queries avg shift cap eff h1 h2 h3] at hm
  injection hm with hm
  subst hm
  simp only [metricsClosed]
  exact ite_decide_eq_left_iff (by decide)

/-- C3 witness: the threshold test instantiated on the sample record. -/
theorem C3_optimal_iff_three_thresholds_witness :
    ((metricsClosed (.str "TeamOmega") 10 150 3 8 70 80).status = "Optimal" ↔
      ((metricsClosed (.str "TeamOmega") 10 150 3 8 70 80).composite_score ≥ 60
        ∧ 0.9 ≤ (metricsClosed (.str "TeamOmega") 10 150 3 8 70 80).staffing_efficiency_ratio
        ∧ (metricsClosed (.str "TeamOmega") 10 150 3 8 70 80).staffing_efficiency_ratio ≤ 1.1
        ∧ (metricsClosed (.str "TeamOmega") 10 150 3 8 70 80).utilization_rate ≤ 90)) :=
  C3_optimal_iff_three_thresholds "TeamOmega" 10 150 3 8 70 80
    (by unfold ValidInputs; decide) (by norm_num) _
    (calculate_metrics_mkTeam "TeamOmega" 10 150 3 8 70 80
      (by norm_num) (by norm_num) (by norm_num))

/-- C9 as amended: in exact rational arithmetic the division of step 2
round-trips with the product of step 1 on every validated record (nonzero
capacity): `workload_per_agent * current_staff = workload_step1`.  Under the
program's binary64 arithmetic the equality holds only up to rounding and can
fail exactly (see the C9 counterexample). -/
theorem C9_workload_roundtrip (tid : String) (staff queries avg shift cap eff : ℚ)
    (hv : ValidInputs staff queries avg shift cap eff) (hcap : 0 < cap) :
    ∀ m, calculate_metrics (mkTeam tid staff queries avg shift cap eff) = .ok m →
      m.workload_per_agent * m.current_staff = m.workload_step1 := by
  obtain ⟨hd1, hs, hd2, hq, ha, hsh, hc0, hc100, he0, he100⟩ := hv
  have h1 : staff ≠ 0 := ne_of_gt hs
  have h2 : shift * 60 * (cap / 100) ≠ 0 :=
    ne_of_gt (mul_pos (mul_pos hsh (by norm_num)) (div_pos hcap (by norm_num)))
  have h3 : queries * avg / (shift * 60 * (cap / 100)) ≠ 0 :=
    div_ne_zero (ne_of_gt (mul_pos hq ha)) h2
  intro m hm
  rw [calculate_metrics_mkTeam tid staff queries avg shift cap eff h1 h2 h3] at hm
  injection hm with hm
  subst hm
  simp only [metricsClosed]
  exact div_mul_cancel₀ _ h1

/-- C9 witness: the round-trip instantiated on the sample record. -/
theorem C9_workload_roundtrip_witness :
    (metricsClosed (.str "TeamOmega") 10 150 3 8 70 80).workload_per_agent
        * (metricsClosed (.str "TeamOmega") 10 150 3 8 70 80).current_staff
      = (metricsClosed (.str "TeamOmega") 10 150 3 8 70 80).workload_step1 :=
  C9_workload_roundtrip "TeamOmega" 10 150 3 8 70 80
    (by unfold ValidInputs; decide) (by norm_num) _
    (calculate_metrics_mkTeam "TeamOmega" 10 150 3 8 70 80
      (by norm_num) (by norm_num) (by norm_num))

/-- C4 counterexample: the sample record is not optimal (its staffing
efficiency ratio exceeds 1.1), and the status the code stores is the
two-word string "Needs Adjustment", not "NeedsAdjustment". -/
theorem C4_status_spelling_counterexample :
    calculate_metrics (mkTeam "TeamOmega" 10 150 3 8 70 80)
        = .ok (metricsClosed (.str "TeamOmega") 10 150 3 8 70 80)
      ∧ ¬ ((metricsClosed (.str "TeamOmega") 10 150 3 8 70 80).staffing_efficiency_ratio ≤ 1.1)
      ∧ (metricsClosed (.str "TeamOmega") 10 150 3 8 70 80).status = "Needs Adjustment"
      ∧ (metricsClosed (.str "TeamOmega") 10 150 3 8 70 80).status ≠ "NeedsAdjustment" := by
  have hser : ¬ ((metricsClosed (.str "TeamOmega") 10 150 3 8 70 80).staffing_efficiency_ratio ≤ 1.1) := by
    simp only [metricsClosed]
    norm_num
  have hstat : (metricsClosed (.str "TeamOmega") 10 150 3 8 70 80).status = "Needs Adjustment" := by
    simp only [metricsClosed]
    rw [if_neg]
    simp only [decide_eq_true_eq]
    norm_num
  refine ⟨calculate_metrics_mkTeam "TeamOmega" 10 150 3 8 70 80
      (by norm_num) (by norm_num) (by norm_num), hser, hstat, ?_⟩
  rw [hstat]
  decide

/-- C4 as amended: on a validated record (nonzero capacity) the status is
exactly "Optimal" when the record is optimal and exactly "Needs Adjustment"
(with a space) otherwise. -/
theorem C4_status_strings (tid : String) (staff queries avg shift cap eff : ℚ)
    (hv : ValidInputs staff queries avg shift cap eff) (hcap : 0 < cap) :
    ∀ m, calculate_metrics (mkTeam tid staff queries avg shift cap eff) = .ok m →
      m.status =
        if m.composite_score ≥ 60 ∧ 0.9 ≤ m.staffing_efficiency_ratio
            ∧ m.staffing_efficiency_ratio ≤ 1.1 ∧ m.utilization_rate ≤ 90
        then "Optimal" else "Needs Adjustment" := by
  obtain ⟨hd1, hs, hd2, hq, ha, hsh, hc0, hc100, he0, he100⟩ := hv
  have h1 : staff ≠ 0 := ne_of_gt hs
  have h2 : shift * 60 * (cap / 100) ≠ 0 :=
    ne_of_gt (mul_pos (mul_pos hsh (by norm_num)) (div_pos hcap (by norm_num)))
  have h3 : queries * avg / (shift * 60 * (cap / 100)) ≠ 0 :=
    div_ne_zero (ne_of_gt (mul_pos hq ha)) h2
  intro m hm
  rw [calculate_metrics_mkTeam tid staff queries avg shift cap eff h1 h2 h3] at hm
  injection hm with hm
  subst hm
  simp only [metricsClosed]
  by_cases hP : (60 : ℚ) ≤
        (shift * 60 * (cap / 100) - queries * avg / staff) / (shift * 60 * (cap / 100)) * 100 * 0.5
          + eff * 0.3
          + (100 - queries * avg / staff / (shift * 60 * (cap / 100)) * 100) * 0.2
      ∧ 0.9 ≤ staff / (queries * avg / (shift * 60 * (cap / 100)))
      ∧ staff / (queries * avg / (shift * 60 * (cap / 100))) ≤ 1.1
      ∧ queries * avg / staff / (shift * 60 * (cap / 100)) * 100 ≤ 90 <;>
    simp [hP]

/-- C4 amended witness: the status rule instantiated on the sample record. -/
theorem C4_status_strings_witness :
    (metricsClosed (.str "TeamOmega") 10 150 3 8 70 80).status =
      if (metricsClosed (.str "TeamOmega") 10 150 3 8 70 80).composite_score ≥ 60
          ∧ 0.9 ≤ (metricsClosed (.str "TeamOmega") 10 150 3 8 70 80).staffing_efficiency_ratio
          ∧ (metricsClosed (.str "TeamOmega") 10 150 3 8 70 80).staffing_efficiency_ratio ≤ 1.1
          ∧ (metricsClosed (.str "TeamOmega") 10 150 3 8 70 80).utilization_rate ≤ 90
      then "Optimal" else "Needs Adjustment" :=
  C4_status_strings "TeamOmega" 10 150 3 8 70 80
    (by unfold ValidInputs; decide) (by norm_num) _
    (calculate_metrics_mkTeam "TeamOmega" 10 150 3 8 70 80
      (by norm_num) (by norm_num) (by norm_num))

/-- C7: on a validated record with `available_capacity = 0` the metrics
calculation raises `ZeroDivisionError` (a Python `ArithmeticError`) at the
capacity-dependent division instead of producing infinite or NaN values, and
the error propagates out of the whole pipeline. -/
theorem C7_zero_capacity_arithmetic_error (tid : String) (staff q a sh eff : ℚ)
    (h1 : staff ≠ 0) :
    calculate_metrics (mkTeam tid staff q a sh 0 eff) = .error .zeroDivisionError
      ∧ PyError.zeroDivisionError.isArithmeticError = true
      ∧ process_teams zeroCapBatch = .error .zeroDivisionError := by
  refine ⟨calculate_metrics_zero_cap tid staff q a sh eff h1, rfl, ?_⟩
  have hz : calculate_metrics (mkTeam "TeamZeroCap" 10 150 3 8 0 80)
      = .error .zeroDivisionError :=
    calculate_metrics_zero_cap "TeamZeroCap" 10 150 3 8 80 (by norm_num)
  have hg : generate_report [mkTeam "TeamZeroCap" 10 150 3 8 0 80]
      = .error .zeroDivisionError := generate_report_single_error _ _ hz
  have hv : validate_data [mkTeam "TeamZeroCap" 10 150 3 8 0 80]
      = .ok (zeroCapReport, []) := by decide
  simp [process_teams, zeroCapBatch, hv, hg, bind_ok, Bind.bind, Except.bind]

/-- C7 witness: the zero-capacity behavior at a concrete record. -/
theorem C7_zero_capacity_arithmetic_error_witness :
    ((10 : ℚ) ≠ 0) ∧
      (calculate_metrics (mkTeam "TeamZero" 10 150 3 8 0 80) = .error .zeroDivisionError
        ∧ PyError.zeroDivisionError.isArithmeticError = true
        ∧ process_teams zeroCapBatch = .error .zeroDivisionError) :=
  ⟨by norm_num, C7_zero_capacity_arithmetic_error "TeamZero" 10 150 3 8 80 (by norm_num)⟩

/-- C8 counterexample: on the sample record the composite score is 4739/56 =
84.625, which is 22.365 away from the claimed 62.26. -/
theorem C8_composite_score_not_62_26 :
    (calculate_metrics (mkTeam "TeamOmega" 10 150 3 8 70 80)).map TeamMetrics.composite_score
        = .ok (4739 / 56)
      ∧ (4739 / 56 : ℚ) - 62.26 = 22.365 := by
  constructor
  · rw [calculate_metrics_mkTeam "TeamOmega" 10 150 3 8 70 80
      (by norm_num) (by norm_num) (by norm_num)]
    simp only [Except.map, metricsClosed, Except.ok.injEq]
    norm_num
  · norm_num

/-- C8 as amended: on the sample record the metrics are
`workload_per_agent = 45`, `agent_capacity = 336`,
`utilization_rate = 375/28 ≈ 13.39` and
`composite_score = 4739/56 = 84.625` (≈ 84.63, not ≈ 62.26). -/
theorem C8_sample_record_metrics :
    (calculate_metrics (mkTeam "TeamOmega" 10 150 3 8 70 80)).map TeamMetrics.workload_per_agent
        = .ok 45
      ∧ (calculate_metrics (mkTeam "TeamOmega" 10 150 3 8 70 80)).map TeamMetrics.agent_capacity
        = .ok 336
      ∧ (calculate_metrics (mkTeam "TeamOmega" 10 150 3 8 70 80)).map TeamMetrics.utilization_rate
        = .ok (375 / 28)
      ∧ |(375 / 28 : ℚ) - 13.39| < 0.005
      ∧ (calculate_metrics (mkTeam "TeamOmega" 10 150 3 8 70 80)).map TeamMetrics.composite_score
        = .ok (4739 / 56)
      ∧ (4739 / 56 : ℚ) = 84.625 := by
  have hm := calculate_metrics_mkTeam "TeamOmega" 10 150 3 8 70 80
    (by norm_num) (by norm_num) (by norm_num)
  refine ⟨?_, ?_, ?_, ?_, ?_, by norm_num⟩ <;>
    first
      | (rw [hm]; simp only [Except.map, metricsClosed, Except.ok.injEq]; norm_num)
      | (rw [abs_lt]; constructor <;> norm_num)

/-- C10: a rollup line marks its field "validated" exactly when no collected
error string contains the substring `Invalid value for '<field>'`; in
particular a batch whose only failure is a numeric-parse ("Invalid data
type") error still shows every field as validated although the error list is
non-empty. -/
theorem C10_rollup_validated_iff_no_invalid_value (errs : List String)
    (field label : String) (hmem : (field, label) ∈ fieldLabels) :
    ((rollup_line field label errs = s!" - {field} ({label}): validated") ↔
      ¬ ∃ err ∈ errs, (s!"Invalid value for \x27{field}\x27").toList <:+: err.toList)
    ∧ validate_data typeErrBatch = .ok (typeErrReport, typeErrList)
    ∧ typeErrList ≠ []
    ∧ " - current_staff (positive integer): validated" ∈ typeErrReport := by
  refine ⟨?_, by decide, by decide, by decide⟩
  fin_cases hmem <;> exact rollup_line_eq_validated_iff _ _ errs (by decide)

/-- C10 witness: the rollup rule instantiated at `current_staff` with an
empty error list. -/
theorem C10_rollup_validated_iff_no_invalid_value_witness :
    ((rollup_line "current_staff" "positive integer" []
        = " - current_staff (positive integer): validated") ↔
      ¬ ∃ err ∈ ([] : List String),
          ("Invalid value for \x27current_staff\x27").toList <:+: err.toList)
    ∧ validate_data typeErrBatch = .ok (typeErrReport, typeErrList)
    ∧ typeErrList ≠ []
    ∧ " - current_staff (positive integer): validated" ∈ typeErrReport :=
  C10_rollup_validated_iff_no_invalid_value [] "current_staff" "positive integer"
    (by decide)

/-- C9 counterexample (binary64): the record `current_staff = 49`,
`queries_per_day = 1`, `average_query_time = 1.0` passes validation, and in
the exact model `workload_step1 = 1` and `workload_per_agent = 1/49`.  Under
binary64 rounding (the arithmetic the program actually runs), step 1 is
exact (`fl 1 = 1`), step 2 stores `fl (1/49) = 5882252574524729 / 2^58`, and
multiplying back by `current_staff` gives
`fl (fl (1/49) * 49) = 1 - 2⁻⁵³ ≠ 1 = workload_step1`: the round-trip is not
exact in the program's arithmetic. -/
theorem C9_float_roundtrip_counterexample :
    ValidInputs 49 1 1 8 70 80
      ∧ (calculate_metrics (mkTeam "TeamFortyNine" 49 1 1 8 70 80)).map
          TeamMetrics.workload_step1 = .ok 1
      ∧ (calculate_metrics (mkTeam "TeamFortyNine" 49 1 1 8 70 80)).map
          TeamMetrics.workload_per_agent = .ok (1 / 49)
      ∧ fl 1 = 1
      ∧ fl (1 / 49) = 5882252574524729 / 2 ^ 58
      ∧ fl ((5882252574524729 : ℚ) / 2 ^ 58 * 49) = 1 - 1 / 2 ^ 53
      ∧ (1 : ℚ) - 1 / 2 ^ 53 ≠ 1 := by
  have hm := calculate_metrics_mkTeam "TeamFortyNine" 49 1 1 8 70 80
    (by norm_num) (by norm_num) (by norm_num)
  refine ⟨by unfold ValidInputs; decide, ?_, ?_, ?_, ?_, ?_, by norm_num⟩
  · rw [hm]
    simp only [Except.map, metricsClosed, Except.ok.injEq]
    norm_num
  · rw [hm]
    simp only [Except.map, metricsClosed, Except.ok.injEq]
    norm_num
  · have l0 : Int.log 2 (1 : ℚ) = 0 := Int.log_one_right 2
    have f0 : ⌊(1 : ℚ) / 2 ^ ((0 : ℤ) - 52)⌋ = 4503599627370496 := by
      rw [Int.floor_eq_iff]
      constructor <;> norm_num
    have hm0 : roundEven ((1 : ℚ) / 2 ^ ((0 : ℤ) - 52)) = 4503599627370496 :=
      roundEven_eq_floor f0 (by norm_num)
    rw [fl_pos_eval (by norm_num) l0 hm0]
    norm_num
  · have l1 : Int.log 2 ((1 : ℚ) / 49) = -6 :=
      Int_log_eq 2 (by norm_num) (by norm_num) (by norm_num) (by norm_num)
    have f1 : ⌊((1 : ℚ) / 49) / 2 ^ ((-6 : ℤ) - 52)⌋ = 5882252574524729 := by
      rw [Int.floor_eq_iff]
      constructor <;> norm_num
    have hm1 : roundEven (((1 : ℚ) / 49) / 2 ^ ((-6 : ℤ) - 52)) = 5882252574524729 :=
      roundEven_eq_floor f1 (by norm_num)
    rw [fl_pos_eval (by norm_num) l1 hm1]
    norm_num
  · have l2 : Int.log 2 ((5882252574524729 : ℚ) / 2 ^ 58 * 49) = -1 :=
      Int_log_eq 2 (by norm_num) (by norm_num) (by norm_num) (by norm_num)
    have f2 : ⌊((5882252574524729 : ℚ) / 2 ^ 58 * 49) / 2 ^ ((-1 : ℤ) - 52)⌋
        = 9007199254740991 := by
      rw [Int.floor_eq_iff]
      constructor <;> norm_num
    have hm2 : roundEven (((5882252574524729 : ℚ) / 2 ^ 58 * 49) / 2 ^ ((-1 : ℤ) - 52))
        = 9007199254740991 :=
      roundEven_eq_floor f2 (by norm_num)
    rw [fl_pos_eval (by norm_num) l2 hm2]
    norm_num
